import Mathlib

/-!
Shallow embedding of `src/main.py` of the best-win-backend repository: a
FastAPI service exposing BEP-20 token-transfer endpoints backed by web3.

The external world (the blockchain node reached over RPC, web3's address
checksumming, and local transaction signing) is modelled by a `W3` oracle
record giving the outcome of each external call. Each HTTP handler is a
function from the oracle and the request body to the HTTP response paired
with the trace of events (node reads, transaction build, broadcast) the
invocation performed, so that properties such as "zero broadcasts" or
"the broadcast nonce equals the transaction-count read" are statable.
-/

/-- Python exceptions arising in the handlers: FastAPI's `HTTPException`
(raised explicitly for the insufficient-balance branch and by the blanket
`except`), `ValueError` (raised by web3 on a malformed address), and any
other exception a web3 call may raise (network failures and the like). -/
inductive PyExn where
  | httpException (status : Nat) (detail : String)
  | valueError (msg : String)
  | otherError (msg : String)
deriving DecidableEq, Repr

/-- Message of an exception, modelling Python's `str(e)`. -/
def PyExn.toMessage : PyExn → String
  | .httpException _ d => d
  | .valueError m => m
  | .otherError m => m

/-- Mirror of web3's `to_wei(n, "gwei")`: one gwei is `10 ^ 9` wei. -/
def toWeiGwei (n : Nat) : Nat := n * 10 ^ 9

/-- The transaction dict assembled by `build_transaction` in
`src/main.py` lines 69-74 and 99-104: the token `transfer(recipient,
value)` call together with `chainId`, `gas`, `gasPrice` and `nonce`. -/
structure Txn where
  chainId : Nat
  gas : Nat
  gasPrice : Nat
  nonce : Nat
  toAddr : String
  value : Nat
deriving DecidableEq, Repr

/-- Result of `w3.eth.account.sign_transaction(txn, PRIVATE_KEY)`.
Signing is a pure function of the transaction contents and the fixed
process-wide key, and the resulting `raw_transaction` bytes encode
exactly the assembled transaction's fields, so the model carries the
`Txn` itself as the raw transaction. Whether signing raises for a given
transaction is a separate oracle field (`W3.signErrorOf`). -/
structure SignedTxn where
  rawTransaction : Txn
deriving DecidableEq, Repr

/-- Observable steps of one handler invocation: the two node reads
(`balanceOf` contract call, `get_transaction_count`), the local
`build_transaction` step, and the `send_raw_transaction` broadcast. -/
inductive Event where
  | balanceRead
  | txCountRead
  | txBuilt (txn : Txn)
  | sendRaw (stx : SignedTxn)
deriving DecidableEq, Repr

/-- Number of `send_raw_transaction` broadcasts in a trace. -/
def countSendRaw : List Event → Nat
  | [] => 0
  | .sendRaw _ :: tr => countSendRaw tr + 1
  | _ :: tr => countSendRaw tr

/-- Number of `get_transaction_count` (nonce) reads in a trace. -/
def countTxCountRead : List Event → Nat
  | [] => 0
  | .txCountRead :: tr => countTxCountRead tr + 1
  | _ :: tr => countTxCountRead tr

/-- Number of `balanceOf` reads in a trace. -/
def countBalanceRead : List Event → Nat
  | [] => 0
  | .balanceRead :: tr => countBalanceRead tr + 1
  | _ :: tr => countBalanceRead tr

/-- Number of `build_transaction` steps in a trace. -/
def countTxBuilt : List Event → Nat
  | [] => 0
  | .txBuilt _ :: tr => countTxBuilt tr + 1
  | _ :: tr => countTxBuilt tr

/-- Request body of the transfer endpoints (`src/main.py` lines 51-53). -/
structure TransferRequest where
  recipient : String
  amount : Float

/-- Oracle for the external web3 world, fixing the outcome of every
external call a handler can make. `balanceOfSender` and
`getTransactionCount` are the node's answers for the process-wide
`SENDER_ADDRESS`; `toChecksumAddress` models web3's address
normalization (which raises on a malformed input before any network
call); `signErrorOf` tells whether local signing raises for a given
transaction; `sendRawTransaction` is the node's answer (the transaction
hash hex string, already through `.hex()`) to a broadcast; `isConnected`
is the outcome of `w3.is_connected()`. -/
structure W3 where
  toChecksumAddress : String → Except PyExn String
  balanceOfSender : Except PyExn Nat
  getTransactionCount : Except PyExn Nat
  signErrorOf : Txn → Option PyExn
  sendRawTransaction : SignedTxn → Except PyExn String
  isConnected : Except PyExn Bool

/-- HTTP response delivered to the caller: the success JSON body
`status = success, tx_hash = ...`, or an error status with a detail
message as FastAPI produces from a raised `HTTPException`. -/
inductive Resp where
  | success (txHash : String)
  | httpError (status : Nat) (detail : String)
deriving DecidableEq, Repr

/-- Whether a response is an error response. -/
def Resp.isError : Resp → Bool
  | .success _ => false
  | .httpError _ _ => true

/-- Body of the `try` block of `winner_tokens` (`src/main.py` lines
58-81): the Python-level outcome (returned value or raised exception)
together with the trace of events performed up to that point. -/
def winnerTokensTry (w3 : W3) (data : TransferRequest) :
    Except PyExn String × List Event :=
  match w3.toChecksumAddress data.recipient with
  | .error e => (.error e, [])
  | .ok recipientAddress =>
    let amountWei : Nat := 4 * 10 ^ 18
    match w3.balanceOfSender with
    | .error e => (.error e, [.balanceRead])
    | .ok senderBalance =>
      if senderBalance < amountWei then
        (.error (.httpException 400 "Insufficient token balance."), [.balanceRead])
      else
        match w3.getTransactionCount with
        | .error e => (.error e, [.balanceRead, .txCountRead])
        | .ok nonce =>
          let txn : Txn :=
            { chainId := 56, gas := 200000, gasPrice := toWeiGwei 5,
              nonce := nonce, toAddr := recipientAddress, value := amountWei }
          match w3.signErrorOf txn with
          | some e => (.error e, [.balanceRead, .txCountRead, .txBuilt txn])
          | none =>
            let signedTxn : SignedTxn := ⟨txn⟩
            match w3.sendRawTransaction signedTxn with
            | .error e =>
              (.error e,
               [.balanceRead, .txCountRead, .txBuilt txn, .sendRaw signedTxn])
            | .ok txHash =>
              (.ok txHash,
               [.balanceRead, .txCountRead, .txBuilt txn, .sendRaw signedTxn])

/-- `POST /winner_tokens/` handler (`src/main.py` lines 55-83): the try
body wrapped in the blanket `except Exception` that turns every raised
exception — the explicit `HTTPException(400)` included, since
`HTTPException` is an `Exception` subclass — into
`HTTPException(500, "Internal server error.")`, which FastAPI serializes
as the response. -/
def winner_tokens (w3 : W3) (data : TransferRequest) : Resp × List Event :=
  match winnerTokensTry w3 data with
  | (.ok txHash, tr) => (.success txHash, tr)
  | (.error _, tr) => (.httpError 500 "Internal server error.", tr)

/-- Body of the `try` block of `draw_tokens` (`src/main.py` lines
88-111), a near-duplicate of `winnerTokensTry` with the amount constant
`2 * 10 ^ 18` instead of `4 * 10 ^ 18`. -/
def drawTokensTry (w3 : W3) (data : TransferRequest) :
    Except PyExn String × List Event :=
  match w3.toChecksumAddress data.recipient with
  | .error e => (.error e, [])
  | .ok recipientAddress =>
    let amountWei : Nat := 2 * 10 ^ 18
    match w3.balanceOfSender with
    | .error e => (.error e, [.balanceRead])
    | .ok senderBalance =>
      if senderBalance < amountWei then
        (.error (.httpException 400 "Insufficient token balance."), [.balanceRead])
      else
        match w3.getTransactionCount with
        | .error e => (.error e, [.balanceRead, .txCountRead])
        | .ok nonce =>
          let txn : Txn :=
            { chainId := 56, gas := 200000, gasPrice := toWeiGwei 5,
              nonce := nonce, toAddr := recipientAddress, value := amountWei }
          match w3.signErrorOf txn with
          | some e => (.error e, [.balanceRead, .txCountRead, .txBuilt txn])
          | none =>
            let signedTxn : SignedTxn := ⟨txn⟩
            match w3.sendRawTransaction signedTxn with
            | .error e =>
              (.error e,
               [.balanceRead, .txCountRead, .txBuilt txn, .sendRaw signedTxn])
            | .ok txHash =>
              (.ok txHash,
               [.balanceRead, .txCountRead, .txBuilt txn, .sendRaw signedTxn])

/-- `POST /draw_tokens/` handler (`src/main.py` lines 85-113). -/
def draw_tokens (w3 : W3) (data : TransferRequest) : Resp × List Event :=
  match drawTokensTry w3 data with
  | (.ok txHash, tr) => (.success txHash, tr)
  | (.error _, tr) => (.httpError 500 "Internal server error.", tr)

/-- The method/path pairs registered on the FastAPI `app` in
`src/main.py`: the two POST transfer endpoints (lines 55, 85) and the
three GET endpoints (lines 115, 119, 123). -/
def appRoutes : List (String × String) :=
  [("POST", "/winner_tokens/"), ("POST", "/draw_tokens/"),
   ("GET", "/"), ("GET", "/ping"), ("GET", "/health")]

/-- JSON body returned by `GET /health`: a `status` string plus the
optional `rpc_connected` and `error` fields (each present in some
branches only). -/
structure HealthResp where
  status : String
  rpcConnected : Option Bool
  errorMsg : Option String
deriving DecidableEq, Repr

/-- `GET /health` handler (`src/main.py` lines 123-131). The return type
is a plain `HealthResp` (not `Except`): the try/except catches any
exception `is_connected` raises, so the handler never propagates an
exception past the endpoint boundary. -/
def health_check (w3 : W3) : HealthResp :=
  match w3.isConnected with
  | .ok true => { status := "healthy", rpcConnected := some true, errorMsg := none }
  | .ok false => { status := "unhealthy", rpcConnected := some false, errorMsg := none }
  | .error e => { status := "unhealthy", rpcConnected := none, errorMsg := some e.toMessage }

/-- Modelled from the spec: the single parameterized transfer operation
(spec section 4.1, and the design note collapsing the near-duplicate
endpoint variants into one operation with the amount pre-bound per
route). Used only to state and prove that the two source handlers are
the same function up to their amount constant. Try-body part. -/
def genericTokensTry (amountWei : Nat) (w3 : W3) (data : TransferRequest) :
    Except PyExn String × List Event :=
  match w3.toChecksumAddress data.recipient with
  | .error e => (.error e, [])
  | .ok recipientAddress =>
    match w3.balanceOfSender with
    | .error e => (.error e, [.balanceRead])
    | .ok senderBalance =>
      if senderBalance < amountWei then
        (.error (.httpException 400 "Insufficient token balance."), [.balanceRead])
      else
        match w3.getTransactionCount with
        | .error e => (.error e, [.balanceRead, .txCountRead])
        | .ok nonce =>
          let txn : Txn :=
            { chainId := 56, gas := 200000, gasPrice := toWeiGwei 5,
              nonce := nonce, toAddr := recipientAddress, value := amountWei }
          match w3.signErrorOf txn with
          | some e => (.error e, [.balanceRead, .txCountRead, .txBuilt txn])
          | none =>
            let signedTxn : SignedTxn := ⟨txn⟩
            match w3.sendRawTransaction signedTxn with
            | .error e =>
              (.error e,
               [.balanceRead, .txCountRead, .txBuilt txn, .sendRaw signedTxn])
            | .ok txHash =>
              (.ok txHash,
               [.balanceRead, .txCountRead, .txBuilt txn, .sendRaw signedTxn])

/-- Modelled from the spec: response-level wrapper of `genericTokensTry`,
with the same blanket exception-to-500 boundary as the source handlers. -/
def genericTokens (amountWei : Nat) (w3 : W3) (data : TransferRequest) :
    Resp × List Event :=
  match genericTokensTry amountWei w3 data with
  | (.ok txHash, tr) => (.success txHash, tr)
  | (.error _, tr) => (.httpError 500 "Internal server error.", tr)

/-- The transaction both handlers assemble, as a function of the amount
constant, the checksummed recipient and the nonce read; abbreviates the
record literal of `src/main.py` lines 69-74 in lemma statements. -/
def mkTxn (amountWei : Nat) (recipientAddress : String) (nonce : Nat) : Txn :=
  { chainId := 56, gas := 200000, gasPrice := toWeiGwei 5,
    nonce := nonce, toAddr := recipientAddress, value := amountWei }

/-- Both source try-bodies are instances of the parameterized one. -/
lemma winnerTry_eq_generic (w3 : W3) (data : TransferRequest) :
    winnerTokensTry w3 data = genericTokensTry (4 * 10 ^ 18) w3 data := rfl

/-- Both source try-bodies are instances of the parameterized one. -/
lemma drawTry_eq_generic (w3 : W3) (data : TransferRequest) :
    drawTokensTry w3 data = genericTokensTry (2 * 10 ^ 18) w3 data := rfl

/-- Handler-level version of `winnerTry_eq_generic`. -/
lemma winner_eq_generic (w3 : W3) (data : TransferRequest) :
    winner_tokens w3 data = genericTokens (4 * 10 ^ 18) w3 data := rfl

/-- Handler-level version of `drawTry_eq_generic`. -/
lemma draw_eq_generic (w3 : W3) (data : TransferRequest) :
    draw_tokens w3 data = genericTokens (2 * 10 ^ 18) w3 data := rfl

/-- Every error response of the parameterized handler is the generic 500:
the blanket except replaces any raised exception, the explicit
HTTPException(400) included. -/
lemma generic_error_500 (amountWei : Nat) (w3 : W3) (data : TransferRequest)
    (s : Nat) (d : String)
    (h : (genericTokens amountWei w3 data).1 = .httpError s d) :
    s = 500 ∧ d = "Internal server error." := by
  unfold genericTokens at h
  rcases hg : genericTokensTry amountWei w3 data with ⟨r, tr⟩
  rw [hg] at h
  cases r with
  | ok v => simp at h
  | error e =>
    simp only at h
    exact ⟨(Resp.httpError.injEq _ _ _ _ ▸ h).1.symm, (Resp.httpError.injEq _ _ _ _ ▸ h).2.symm⟩

/-- When the checksum step raises, the parameterized handler answers the
generic 500 with an empty event trace: no node call at all was made. -/
lemma generic_invalid_address (amountWei : Nat) (w3 : W3) (data : TransferRequest)
    (e : PyExn) (he : w3.toChecksumAddress data.recipient = .error e) :
    genericTokens amountWei w3 data = (.httpError 500 "Internal server error.", []) := by
  unfold genericTokens genericTokensTry
  rw [he]

/-- When the balance read succeeds with a value below the amount, the
parameterized handler answers the generic 500 after exactly one balance
read: no nonce read, no build, no broadcast. -/
lemma generic_insufficient (amountWei : Nat) (w3 : W3) (data : TransferRequest)
    (recipientAddress : String) (b : Nat)
    (hr : w3.toChecksumAddress data.recipient = .ok recipientAddress)
    (hb : w3.balanceOfSender = .ok b) (hlt : b < amountWei) :
    genericTokens amountWei w3 data =
      (.httpError 500 "Internal server error.", [.balanceRead]) := by
  unfold genericTokens genericTokensTry
  rw [hr, hb]
  simp [hlt]

/-- Whatever the checksum outcome, a balance read below the amount means
the parameterized handler returns an error and its trace holds no nonce
read, no transaction build and no broadcast. -/
lemma generic_insufficient_trace (amountWei : Nat) (w3 : W3) (data : TransferRequest)
    (b : Nat) (hb : w3.balanceOfSender = .ok b) (hlt : b < amountWei) :
    (genericTokens amountWei w3 data).1.isError = true ∧
    countSendRaw (genericTokens amountWei w3 data).2 = 0 ∧
    countTxCountRead (genericTokens amountWei w3 data).2 = 0 ∧
    countTxBuilt (genericTokens amountWei w3 data).2 = 0 := by
  cases hr : w3.toChecksumAddress data.recipient with
  | error e =>
    rw [generic_invalid_address amountWei w3 data e hr]
    simp [Resp.isError, countSendRaw, countTxCountRead, countTxBuilt]
  | ok recipientAddress =>
    rw [generic_insufficient amountWei w3 data recipientAddress b hr hb hlt]
    simp [Resp.isError, countSendRaw, countTxCountRead, countTxBuilt]

/-- Inversion of a successful run of the parameterized handler: the
checksum, balance, nonce, signing and broadcast steps all succeeded, the
balance was at least the amount, and the trace is exactly one balance
read, one nonce read, the build of the transaction determined by the
amount, the checksummed recipient and the read nonce, and the broadcast
of its signature. -/
lemma generic_success (amountWei : Nat) (w3 : W3) (data : TransferRequest)
    (hsh : String) (tr : List Event)
    (h : genericTokens amountWei w3 data = (.success hsh, tr)) :
    ∃ recipientAddress nonce b,
      w3.toChecksumAddress data.recipient = .ok recipientAddress ∧
      w3.balanceOfSender = .ok b ∧ ¬ b < amountWei ∧
      w3.getTransactionCount = .ok nonce ∧
      w3.signErrorOf (mkTxn amountWei recipientAddress nonce) = none ∧
      w3.sendRawTransaction ⟨mkTxn amountWei recipientAddress nonce⟩ = .ok hsh ∧
      tr = [.balanceRead, .txCountRead,
            .txBuilt (mkTxn amountWei recipientAddress nonce),
            .sendRaw ⟨mkTxn amountWei recipientAddress nonce⟩] := by
  unfold genericTokens genericTokensTry at h
  cases hr : w3.toChecksumAddress data.recipient with
  | error e => rw [hr] at h; simp at h
  | ok recipientAddress =>
    rw [hr] at h
    cases hb : w3.balanceOfSender with
    | error e => rw [hb] at h; simp at h
    | ok b =>
      rw [hb] at h
      simp only at h
      by_cases hlt : b < amountWei
      · rw [if_pos hlt] at h; simp at h
      · rw [if_neg hlt] at h
        cases hn : w3.getTransactionCount with
        | error e => rw [hn] at h; simp at h
        | ok nonce =>
          rw [hn] at h
          simp only at h
          rw [show ({ chainId := 56, gas := 200000, gasPrice := toWeiGwei 5,
                      nonce := nonce, toAddr := recipientAddress,
                      value := amountWei } : Txn) =
            mkTxn amountWei recipientAddress nonce from rfl] at h
          cases hs : w3.signErrorOf (mkTxn amountWei recipientAddress nonce) with
          | some e => rw [show w3.signErrorOf _ = some e from hs] at h; simp at h
          | none =>
            rw [show w3.signErrorOf _ = none from hs] at h
            cases hb2 : w3.sendRawTransaction ⟨mkTxn amountWei recipientAddress nonce⟩ with
            | error e => rw [show w3.sendRawTransaction _ = .error e from hb2] at h; simp at h
            | ok v =>
              rw [show w3.sendRawTransaction _ = .ok v from hb2] at h
              simp only [Prod.mk.injEq, Resp.success.injEq] at h
              exact ⟨recipientAddress, nonce, b, rfl, rfl, hlt, rfl, hs,
                h.1 ▸ hb2, h.2.symm⟩

/-- Inversion of a transaction-build event: any transaction whose build
appears in the parameterized handler's trace is exactly the one
assembled from the amount constant, the checksummed recipient and the
nonce returned by the transaction-count read of that invocation. -/
lemma generic_txBuilt (amountWei : Nat) (w3 : W3) (data : TransferRequest)
    (txn : Txn) (h : Event.txBuilt txn ∈ (genericTokens amountWei w3 data).2) :
    ∃ recipientAddress nonce,
      w3.toChecksumAddress data.recipient = .ok recipientAddress ∧
      w3.getTransactionCount = .ok nonce ∧
      txn = mkTxn amountWei recipientAddress nonce := by
  have htr : (genericTokens amountWei w3 data).2 = (genericTokensTry amountWei w3 data).2 := by
    unfold genericTokens
    rcases hg : genericTokensTry amountWei w3 data with ⟨r, tr⟩
    cases r <;> simp
  rw [htr] at h
  unfold genericTokensTry at h
  cases hr : w3.toChecksumAddress data.recipient with
  | error e => rw [hr] at h; simp at h
  | ok recipientAddress =>
    rw [hr] at h
    cases hb : w3.balanceOfSender with
    | error e => rw [hb] at h; simp at h
    | ok b =>
      rw [hb] at h
      simp only at h
      by_cases hlt : b < amountWei
      · rw [if_pos hlt] at h; simp at h
      · rw [if_neg hlt] at h
        cases hn : w3.getTransactionCount with
        | error e => rw [hn] at h; simp at h
        | ok nonce =>
          rw [hn] at h
          simp only at h
          rw [show ({ chainId := 56, gas := 200000, gasPrice := toWeiGwei 5,
                      nonce := nonce, toAddr := recipientAddress,
                      value := amountWei } : Txn) =
            mkTxn amountWei recipientAddress nonce from rfl] at h
          refine ⟨recipientAddress, nonce, rfl, rfl, ?_⟩
          cases hs : w3.signErrorOf (mkTxn amountWei recipientAddress nonce) with
          | some e =>
            rw [show w3.signErrorOf _ = some e from hs] at h
            simpa [mkTxn] using h
          | none =>
            rw [show w3.signErrorOf _ = none from hs] at h
            cases hb2 : w3.sendRawTransaction ⟨mkTxn amountWei recipientAddress nonce⟩ with
            | error e =>
              rw [show w3.sendRawTransaction _ = .error e from hb2] at h
              simpa [mkTxn] using h
            | ok v =>
              rw [show w3.sendRawTransaction _ = .ok v from hb2] at h
              simpa [mkTxn] using h

/-- Concrete oracle where every external call succeeds: checksumming is
the identity, the sender balance is 10 tokens, the next nonce is 7,
signing never raises, and the node answers a fixed transaction hash. -/
def w3ok : W3 where
  toChecksumAddress := fun s => .ok s
  balanceOfSender := .ok (10 * 10 ^ 18)
  getTransactionCount := .ok 7
  signErrorOf := fun _ => none
  sendRawTransaction := fun _ => .ok "0xabc123"
  isConnected := .ok true

/-- Concrete oracle whose balance read yields 10 smallest units, below
both fixed transfer amounts. -/
def w3poor : W3 := { w3ok with balanceOfSender := .ok 10 }

/-- Concrete oracle whose checksum step raises, as web3 does on a
malformed address string. -/
def w3badAddr : W3 :=
  { w3ok with toChecksumAddress := fun s => .error (.valueError ("bad address " ++ s)) }

/-- Concrete oracle whose connection check reports not connected. -/
def w3down : W3 := { w3ok with isConnected := .ok false }

/-- Concrete oracle whose connection check raises. -/
def w3raising : W3 := { w3ok with isConnected := .error (.otherError "boom") }

/-- C1: the claim fails on the code. With a well-formed recipient and a
sender balance of 10 smallest units (below the fixed 4 and 2 token
amounts), both transfer endpoints answer HTTP 500 with detail
"Internal server error.", not the claimed HTTP 400 insufficient-balance
response: the `HTTPException(400)` raised at `src/main.py` line 65 / 95
is itself an `Exception`, so the blanket `except` at line 82 / 112
catches it and substitutes the 500. The spec's 400 is the evident intent
of the explicit raise; the catch-all is the slip. -/
theorem C1_insufficient_balance_answered_500 :
    winner_tokens w3poor { recipient := "0xABC", amount := 100.0 } =
      (.httpError 500 "Internal server error.", [.balanceRead]) ∧
    draw_tokens w3poor { recipient := "0xABC", amount := 100.0 } =
      (.httpError 500 "Internal server error.", [.balanceRead]) ∧
    (winner_tokens w3poor { recipient := "0xABC", amount := 100.0 }).1 ≠
      .httpError 400 "Insufficient token balance." := by
  refine ⟨rfl, rfl, ?_⟩
  decide

/-- C2: whenever the sender balance read succeeds with a value strictly
below the endpoint's fixed amount, the handler returns an error response
and its event trace holds no broadcast, no transaction-count read, and
no transaction build at all. -/
theorem C2_insufficient_balance_sends_nothing (w3 : W3) (data : TransferRequest)
    (b : Nat) (hb : w3.balanceOfSender = .ok b) :
    (b < 4 * 10 ^ 18 →
      (winner_tokens w3 data).1.isError = true ∧
      countSendRaw (winner_tokens w3 data).2 = 0 ∧
      countTxCountRead (winner_tokens w3 data).2 = 0 ∧
      countTxBuilt (winner_tokens w3 data).2 = 0) ∧
    (b < 2 * 10 ^ 18 →
      (draw_tokens w3 data).1.isError = true ∧
      countSendRaw (draw_tokens w3 data).2 = 0 ∧
      countTxCountRead (draw_tokens w3 data).2 = 0 ∧
      countTxBuilt (draw_tokens w3 data).2 = 0) := by
  constructor
  · intro hlt
    rw [winner_eq_generic]
    exact generic_insufficient_trace (4 * 10 ^ 18) w3 data b hb hlt
  · intro hlt
    rw [draw_eq_generic]
    exact generic_insufficient_trace (2 * 10 ^ 18) w3 data b hb hlt

/-- Witness for C2 at the concrete oracle `w3poor`, whose balance read
answers 10 smallest units. -/
theorem C2_witness :
    w3poor.balanceOfSender = .ok 10 ∧ (10 : Nat) < 4 * 10 ^ 18 ∧
    (winner_tokens w3poor { recipient := "0xABC", amount := 4.0 }).1.isError = true ∧
    countSendRaw (winner_tokens w3poor { recipient := "0xABC", amount := 4.0 }).2 = 0 ∧
    countTxCountRead (winner_tokens w3poor { recipient := "0xABC", amount := 4.0 }).2 = 0 ∧
    countTxBuilt (winner_tokens w3poor { recipient := "0xABC", amount := 4.0 }).2 = 0 :=
  ⟨rfl, by norm_num,
    (C2_insufficient_balance_sends_nothing w3poor
      { recipient := "0xABC", amount := 4.0 } 10 rfl).1 (by norm_num)⟩

/-- C3 as stated is false at this input: a malformed recipient is indeed
rejected with an empty event trace (no node call), but the response
status is 500, which is not a distinguishable 4xx client error. -/
theorem C3_counterexample :
    winner_tokens w3badAddr { recipient := "not-an-address", amount := 0.0 } =
      (.httpError 500 "Internal server error.", []) ∧
    ¬ (400 ≤ 500 ∧ 500 ≤ 499) := by
  refine ⟨rfl, ?_⟩
  decide

/-- C3 amended: for every recipient whose checksum normalization raises,
both transfer endpoints fail before any node RPC call — the event trace
is empty — but the error delivered is the generic HTTP 500
"Internal server error.", not a 4xx client error. -/
theorem C3_invalid_address_no_node_call (w3 : W3) (data : TransferRequest)
    (e : PyExn) (he : w3.toChecksumAddress data.recipient = .error e) :
    winner_tokens w3 data = (.httpError 500 "Internal server error.", []) ∧
    draw_tokens w3 data = (.httpError 500 "Internal server error.", []) := by
  rw [winner_eq_generic, draw_eq_generic]
  exact ⟨generic_invalid_address (4 * 10 ^ 18) w3 data e he,
    generic_invalid_address (2 * 10 ^ 18) w3 data e he⟩

/-- Witness for C3's amended theorem at the concrete oracle `w3badAddr`. -/
theorem C3_witness :
    w3badAddr.toChecksumAddress "not-an-address" =
      .error (.valueError "bad address not-an-address") ∧
    winner_tokens w3badAddr { recipient := "not-an-address", amount := 0.0 } =
      (.httpError 500 "Internal server error.", []) :=
  ⟨rfl,
    (C3_invalid_address_no_node_call w3badAddr
      { recipient := "not-an-address", amount := 0.0 }
      (.valueError "bad address not-an-address") rfl).1⟩

/-- C4 as stated is false: the FastAPI app of `src/main.py` registers no
POST /send_tokens/ route, generic-amount or otherwise. -/
theorem C4_counterexample : ("POST", "/send_tokens/") ∉ appRoutes := by
  decide

/-- C4 amended: the HTTP surface consists of exactly the two fixed-amount
POST transfer endpoints and the three GET endpoints; no registered route
has path /send_tokens/, so no call variant takes its transferred amount
from the request body. -/
theorem C4_registered_routes :
    appRoutes = [("POST", "/winner_tokens/"), ("POST", "/draw_tokens/"),
                 ("GET", "/"), ("GET", "/ping"), ("GET", "/health")] ∧
    ∀ r ∈ appRoutes, r.2 ≠ "/send_tokens/" := by
  refine ⟨rfl, ?_⟩
  decide

/-- Witness for C4's amended theorem at a concrete registered route. -/
theorem C4_witness :
    (("POST", "/winner_tokens/") ∈ appRoutes) ∧
    (("POST", "/winner_tokens/") : String × String).2 ≠ "/send_tokens/" :=
  ⟨by decide, C4_registered_routes.2 ("POST", "/winner_tokens/") (by decide)⟩

/-- C5: every successful run of either transfer endpoint broadcasts a
signed transaction whose nonce field equals the value returned by the
transaction-count read performed in that same invocation. -/
theorem C5_broadcast_nonce_is_txcount_read (w3 : W3) (data : TransferRequest)
    (hsh : String) (tr : List Event) :
    (winner_tokens w3 data = (.success hsh, tr) →
      ∃ stx nonce, Event.sendRaw stx ∈ tr ∧
        w3.getTransactionCount = .ok nonce ∧ stx.rawTransaction.nonce = nonce) ∧
    (draw_tokens w3 data = (.success hsh, tr) →
      ∃ stx nonce, Event.sendRaw stx ∈ tr ∧
        w3.getTransactionCount = .ok nonce ∧ stx.rawTransaction.nonce = nonce) := by
  constructor
  · intro h
    rw [winner_eq_generic] at h
    obtain ⟨ra, n, b, _, _, _, hn, _, _, htr⟩ := generic_success _ w3 data hsh tr h
    exact ⟨⟨mkTxn (4 * 10 ^ 18) ra n⟩, n, by rw [htr]; simp, hn, rfl⟩
  · intro h
    rw [draw_eq_generic] at h
    obtain ⟨ra, n, b, _, _, _, hn, _, _, htr⟩ := generic_success _ w3 data hsh tr h
    exact ⟨⟨mkTxn (2 * 10 ^ 18) ra n⟩, n, by rw [htr]; simp, hn, rfl⟩

/-- Witness for C5 at the all-succeeding oracle `w3ok`, whose
transaction-count read answers 7. -/
theorem C5_witness :
    winner_tokens w3ok { recipient := "0xABC", amount := 1.0 } =
      (.success "0xabc123",
       [.balanceRead, .txCountRead, .txBuilt (mkTxn (4 * 10 ^ 18) "0xABC" 7),
        .sendRaw ⟨mkTxn (4 * 10 ^ 18) "0xABC" 7⟩]) ∧
    ∃ stx nonce,
      Event.sendRaw stx ∈
        [Event.balanceRead, Event.txCountRead,
         Event.txBuilt (mkTxn (4 * 10 ^ 18) "0xABC" 7),
         Event.sendRaw ⟨mkTxn (4 * 10 ^ 18) "0xABC" 7⟩] ∧
      w3ok.getTransactionCount = .ok nonce ∧ stx.rawTransaction.nonce = nonce :=
  ⟨rfl,
    (C5_broadcast_nonce_is_txcount_read w3ok { recipient := "0xABC", amount := 1.0 }
      "0xabc123"
      [Event.balanceRead, Event.txCountRead,
       Event.txBuilt (mkTxn (4 * 10 ^ 18) "0xABC" 7),
       Event.sendRaw ⟨mkTxn (4 * 10 ^ 18) "0xABC" 7⟩]).1 rfl⟩

/-- C6: the request body's amount field has no effect on either handler,
and on success the broadcast transaction's value is exactly
`4 * 10 ^ 18` smallest units for /winner_tokens/ and `2 * 10 ^ 18` for
/draw_tokens/. -/
theorem C6_fixed_amounts_ignore_request_amount (w3 : W3) (r : String) (a b : Float) :
    winner_tokens w3 { recipient := r, amount := a } =
      winner_tokens w3 { recipient := r, amount := b } ∧
    draw_tokens w3 { recipient := r, amount := a } =
      draw_tokens w3 { recipient := r, amount := b } ∧
    (∀ hsh tr stx,
      winner_tokens w3 { recipient := r, amount := a } = (.success hsh, tr) →
      Event.sendRaw stx ∈ tr → stx.rawTransaction.value = 4 * 10 ^ 18) ∧
    (∀ hsh tr stx,
      draw_tokens w3 { recipient := r, amount := a } = (.success hsh, tr) →
      Event.sendRaw stx ∈ tr → stx.rawTransaction.value = 2 * 10 ^ 18) := by
  refine ⟨rfl, rfl, ?_, ?_⟩
  · intro hsh tr stx h hmem
    rw [winner_eq_generic] at h
    obtain ⟨ra, n, b2, _, _, _, _, _, _, htr⟩ := generic_success _ w3 _ hsh tr h
    subst htr
    simp at hmem
    subst hmem
    rfl
  · intro hsh tr stx h hmem
    rw [draw_eq_generic] at h
    obtain ⟨ra, n, b2, _, _, _, _, _, _, htr⟩ := generic_success _ w3 _ hsh tr h
    subst htr
    simp at hmem
    subst hmem
    rfl

/-- Witness for C6 at the all-succeeding oracle `w3ok`: two different
request amounts give the same response, and the broadcast value is the
fixed 4-token amount. -/
theorem C6_witness :
    winner_tokens w3ok { recipient := "0xABC", amount := 1.5 } =
      winner_tokens w3ok { recipient := "0xABC", amount := 100.0 } ∧
    (SignedTxn.mk (mkTxn (4 * 10 ^ 18) "0xABC" 7)).rawTransaction.value = 4 * 10 ^ 18 :=
  ⟨(C6_fixed_amounts_ignore_request_amount w3ok "0xABC" 1.5 100.0).1,
    (C6_fixed_amounts_ignore_request_amount w3ok "0xABC" 1.5 100.0).2.2.1
      "0xabc123"
      [Event.balanceRead, Event.txCountRead,
       Event.txBuilt (mkTxn (4 * 10 ^ 18) "0xABC" 7),
       Event.sendRaw ⟨mkTxn (4 * 10 ^ 18) "0xABC" 7⟩]
      ⟨mkTxn (4 * 10 ^ 18) "0xABC" 7⟩ rfl (by simp)⟩

/-- C7: every transaction either endpoint builds carries the fixed
configuration constants chain id 56, gas limit 200000 and gas price
5 gwei — for every oracle and every request, so none of the three
depends on the request body or on any node read — and its nonce field is
exactly the value of that invocation's transaction-count read, the sole
field coming from the chain. -/
theorem C7_fixed_chain_gas_price (w3 : W3) (data : TransferRequest) (txn : Txn)
    (h : Event.txBuilt txn ∈ (winner_tokens w3 data).2 ∨
         Event.txBuilt txn ∈ (draw_tokens w3 data).2) :
    txn.chainId = 56 ∧ txn.gas = 200000 ∧ txn.gasPrice = toWeiGwei 5 ∧
    w3.getTransactionCount = .ok txn.nonce := by
  rcases h with h | h
  · rw [winner_eq_generic] at h
    obtain ⟨ra, n, hr, hn, htxn⟩ := generic_txBuilt _ w3 data txn h
    subst htxn
    exact ⟨rfl, rfl, rfl, hn⟩
  · rw [draw_eq_generic] at h
    obtain ⟨ra, n, hr, hn, htxn⟩ := generic_txBuilt _ w3 data txn h
    subst htxn
    exact ⟨rfl, rfl, rfl, hn⟩

/-- Witness for C7 at the all-succeeding oracle `w3ok`. -/
theorem C7_witness :
    (Event.txBuilt (mkTxn (4 * 10 ^ 18) "0xABC" 7) ∈
      (winner_tokens w3ok { recipient := "0xABC", amount := 1.0 }).2) ∧
    (mkTxn (4 * 10 ^ 18) "0xABC" 7).chainId = 56 ∧
    (mkTxn (4 * 10 ^ 18) "0xABC" 7).gas = 200000 ∧
    (mkTxn (4 * 10 ^ 18) "0xABC" 7).gasPrice = toWeiGwei 5 ∧
    w3ok.getTransactionCount = .ok (mkTxn (4 * 10 ^ 18) "0xABC" 7).nonce :=
  ⟨by decide,
    C7_fixed_chain_gas_price w3ok { recipient := "0xABC", amount := 1.0 }
      (mkTxn (4 * 10 ^ 18) "0xABC" 7) (.inl (by decide))⟩

/-- C8: any failure of either transfer handler is delivered as HTTP 500
with detail "Internal server error." — every error response has exactly
that status and detail — and in particular the insufficient-balance
branch, whose HTTPException(400) is caught by the blanket except inside
the try block, yields the 500 response after the single balance read. -/
theorem C8_every_failure_is_500 (w3 : W3) (data : TransferRequest) :
    (∀ s d, (winner_tokens w3 data).1 = .httpError s d →
      s = 500 ∧ d = "Internal server error.") ∧
    (∀ s d, (draw_tokens w3 data).1 = .httpError s d →
      s = 500 ∧ d = "Internal server error.") ∧
    (∀ ra b, w3.toChecksumAddress data.recipient = .ok ra →
      w3.balanceOfSender = .ok b → b < 2 * 10 ^ 18 →
      winner_tokens w3 data = (.httpError 500 "Internal server error.", [.balanceRead]) ∧
      draw_tokens w3 data = (.httpError 500 "Internal server error.", [.balanceRead])) := by
  refine ⟨?_, ?_, ?_⟩
  · intro s d h
    rw [winner_eq_generic] at h
    exact generic_error_500 _ w3 data s d h
  · intro s d h
    rw [draw_eq_generic] at h
    exact generic_error_500 _ w3 data s d h
  · intro ra b hr hb hlt
    constructor
    · rw [winner_eq_generic]
      exact generic_insufficient _ w3 data ra b hr hb (lt_of_lt_of_le hlt (by norm_num))
    · rw [draw_eq_generic]
      exact generic_insufficient _ w3 data ra b hr hb hlt

/-- Witness for C8 at the concrete oracle `w3poor` (balance read 10). -/
theorem C8_witness :
    winner_tokens w3poor { recipient := "0xABC", amount := 0.0 } =
      (.httpError 500 "Internal server error.", [.balanceRead]) ∧
    draw_tokens w3poor { recipient := "0xABC", amount := 0.0 } =
      (.httpError 500 "Internal server error.", [.balanceRead]) :=
  (C8_every_failure_is_500 w3poor { recipient := "0xABC", amount := 0.0 }).2.2
    "0xABC" 10 rfl rfl (by norm_num)

/-- C9: the two transfer handlers are the same function up to their
amount constant: on every oracle and request, winner_tokens coincides
with the single parameterized handler at `4 * 10 ^ 18` and draw_tokens
with the same handler at `2 * 10 ^ 18` — so draw_tokens is exactly
winner_tokens with `4 * 10 ^ 18` replaced by `2 * 10 ^ 18`, in both the
response and the event trace. -/
theorem C9_draw_equals_winner_with_amount_halved (w3 : W3) (data : TransferRequest) :
    winner_tokens w3 data = genericTokens (4 * 10 ^ 18) w3 data ∧
    draw_tokens w3 data = genericTokens (2 * 10 ^ 18) w3 data :=
  ⟨rfl, rfl⟩

/-- C10: the health endpoint is a total function of the connection-check
outcome — it never propagates an exception past the endpoint boundary —
answering healthy/true when the check returns true, unhealthy/false when
it returns false, and an unhealthy body carrying the exception message
when the check itself raises. -/
theorem C10_health_total (w3 : W3) :
    (w3.isConnected = .ok true →
      health_check w3 =
        { status := "healthy", rpcConnected := some true, errorMsg := none }) ∧
    (w3.isConnected = .ok false →
      health_check w3 =
        { status := "unhealthy", rpcConnected := some false, errorMsg := none }) ∧
    (∀ e, w3.isConnected = .error e →
      health_check w3 =
        { status := "unhealthy", rpcConnected := none, errorMsg := some e.toMessage }) := by
  refine ⟨fun h => ?_, fun h => ?_, fun e h => ?_⟩ <;> simp [health_check, h]

/-- Witness for C10 at three concrete oracles: connected, reporting not
connected, and raising from the connection check. -/
theorem C10_witness :
    health_check w3ok =
      { status := "healthy", rpcConnected := some true, errorMsg := none } ∧
    health_check w3down =
      { status := "unhealthy", rpcConnected := some false, errorMsg := none } ∧
    health_check w3raising =
      { status := "unhealthy", rpcConnected := none, errorMsg := some "boom" } :=
  ⟨(C10_health_total w3ok).1 rfl,
   (C10_health_total w3down).2.1 rfl,
   (C10_health_total w3raising).2.2 (.otherError "boom") rfl⟩
